import Mathlib

/-!
Verification of the velo-research rating engine against its specification.

The embedding below follows the Python sources under src/:
  * ratings/entities.py   — Rider / GlickoRider state and their mutators
  * ratings/Velo.py       — the Elo variant (simulate_race, h2h, deltas)
  * ratings/VGlicko.py    — the Glicko-2 variant (volatility solver, v, E, g)
  * ratings/utils.py      — get_marg_victory_factor
Numeric values (Python floats) are modelled as real numbers; times
(datetime.timedelta values compared and subtracted in whole seconds) as
integers; dictionaries keyed by rider name as total functions from String,
with the understood domain given by the calling context.  Fallible
computations (statements that raise) are modelled with Option: none stands
for an uncaught exception.
-/

open Classical

set_option linter.unusedVariables false

/-- Calendar date as carried by datetime.date: year, month, day. -/
structure Datestamp where
  year : Int
  month : Int
  day : Int
deriving DecidableEq

/-- entities.py tags a rating-history entry either with the string constant
NEW_SEASON_RATING_KEYWORD or with a datetime.date value. -/
inductive Stamp where
  | newseason : Stamp
  | onDate : Datestamp → Stamp
deriving DecidableEq

/-- entities.py line 9: DEFAULT_INITIAL_RATING = 1500. -/
def DEFAULT_INITIAL_RATING : ℝ := 1500

/-- The per-rider mutable state that the Elo rating engine reads or writes,
from entities.Rider (entities.py lines 12-23): rating, the pending delta,
the rating history and the activity year.  The two season counters mirror
season_wins / season_losses, which Velo.h2h increments; they are declared on
the Rider class of ratings/Rider.py (lines 20-21 and 38-42) — the
entities.py copy of the class dropped them, so at runtime the increment
calls in Velo.h2h raise AttributeError, but they touch no rating state
either way.  The rider name is the key of the rider map and is not
duplicated here; team, age and race_history are bookkeeping fields never
read by the rating arithmetic. -/
structure Rider where
  rating : ℝ
  delta : ℝ
  seasonWins : ℕ
  seasonLosses : ℕ
  ratingHistory : List (ℝ × Stamp)
  mostRecentActiveYear : ℤ

/-- entities.Rider construction with the default initial rating
(entities.py lines 13-23). -/
noncomputable def initial_rider : Rider :=
  { rating := DEFAULT_INITIAL_RATING
    delta := 0
    seasonWins := 0
    seasonLosses := 0
    ratingHistory := [(DEFAULT_INITIAL_RATING, Stamp.newseason)]
    mostRecentActiveYear := 1900 }

/-- entities.Rider.update_delta (entities.py 35-36): the delta accumulator
is increased, nothing else changes. -/
def update_delta (r : Rider) (d : ℝ) : Rider :=
  { r with delta := r.delta + d }

/-- Rider.increment_wins (ratings/Rider.py 38-39). -/
def increment_wins (r : Rider) : Rider :=
  { r with seasonWins := r.seasonWins + 1 }

/-- Rider.increment_losses (ratings/Rider.py 41-42). -/
def increment_losses (r : Rider) : Rider :=
  { r with seasonLosses := r.seasonLosses + 1 }

/-- entities.Rider.resolve_delta (entities.py 38-58): if the delta is
non-zero the most recent active year becomes the year of the datestamp;
the delta is added to the rating and reset; the new rating is appended to
the rating history tagged with the datestamp.  The race_name and
race_weight parameters are accepted and ignored, as in the source. -/
noncomputable def resolve_delta (r : Rider) (raceName : String) (raceWeight : ℝ)
    (d : Datestamp) : Rider :=
  { r with
    mostRecentActiveYear := if r.delta ≠ 0 then d.year else r.mostRecentActiveYear
    rating := r.rating + r.delta
    delta := 0
    ratingHistory := r.ratingHistory ++ [(r.rating + r.delta, Stamp.onDate d)] }

/-- entities.Rider.new_season (entities.py 60-75): the rating is replaced by
DEFAULT_INITIAL_RATING * weight + rating * (1 - weight) and recorded in the
history stamped with January 1 of the given year.  (The race_history marker
appended on line 71 is bookkeeping not modelled here.)  Note the call site
Velo.new_season_regression (Velo.py 197) passes a single argument to this
two-argument method, which raises TypeError at runtime; the body embedded
here is what the method computes when called as declared. -/
noncomputable def new_season (r : Rider) (year : ℤ) (weight : ℝ) : Rider :=
  { r with
    rating := DEFAULT_INITIAL_RATING * weight + r.rating * (1 - weight)
    ratingHistory := r.ratingHistory ++
      [(DEFAULT_INITIAL_RATING * weight + r.rating * (1 - weight),
        Stamp.onDate ⟨year, 1, 1⟩)] }

/-- The Q value of Velo._get_win_loss_probabilities (Velo.py 316-317):
ELO_Q_BASE ** (rating / ELO_Q_EXPONENT_DENOM) with base 10 and
denominator 400 (Velo.py 26-27). -/
noncomputable def elo_q (rating : ℝ) : ℝ := (10 : ℝ) ^ (rating / 400)

/-- Velo._get_win_loss_probabilities (Velo.py 310-322): the pair of
pseudo-probabilities (q1 / (q1 + q2), q2 / (q1 + q2)). -/
noncomputable def win_loss_probabilities (r1 r2 : ℝ) : ℝ × ℝ :=
  (elo_q r1 / (elo_q r1 + elo_q r2), elo_q r2 / (elo_q r1 + elo_q r2))

/-- Velo.h2h line 169: rider1 scores 1 exactly when its time is less than
or equal to rider2's (rider1 is assumed to have beaten rider2 when the
times are equal). -/
def rider1_score (t1 t2 : ℤ) : ℝ := if t1 ≤ t2 then 1 else 0

/-- Velo.h2h line 170: rider2 scores 1 exactly when its time is strictly
less than rider1's. -/
def rider2_score (t1 t2 : ℤ) : ℝ := if t2 < t1 then 1 else 0

/-- Velo._get_margvict_mult (Velo.py 324-342) as it actually executes.
With time_gap_multiplier None, line 331 evaluates
(rider1_time - rider2_time) * None before the try block opens, raising
TypeError (modelled none).  With a multiplier present, the try block body
references math.log, but Velo.py never imports math, so a NameError is
raised and the bare except on line 341 returns 1 — the written formula is
never computed.  The rating and time arguments are therefore read but
cannot influence the returned value. -/
noncomputable def get_margvict_mult (r1 r2 : ℝ) (t1 t2 : ℤ) (tgm : Option ℝ) :
    Option ℝ :=
  tgm.map (fun _ => (1 : ℝ))

/-- The one value Velo._get_margvict_mult ever returns (see
get_margvict_mult): the margin factor of every executed head-to-head. -/
def margvict_val : ℝ := 1

/-- utils.get_marg_victory_factor (ratings/utils.py 198-217): returns 1 for
a None multiplier, otherwise
log(abs(t2 - t1) * multiplier + 2) * (2.2 / ((r1 - r2) * 0.001 + 2.2)).
This is the formula the specification quotes; Velo.h2h does not call it. -/
noncomputable def get_marg_victory_factor (r1 r2 : ℝ) (t1 t2 : ℤ)
    (tgm : Option ℝ) : ℝ :=
  match tgm with
  | none => 1
  | some m => Real.log (((|t2 - t1| : ℤ) : ℝ) * m + 2) *
      (2.2 / ((r1 - r2) * 0.001 + 2.2))

/-- The delta contribution of rider1 in Velo.h2h line 176:
matchup_weight * margvict_mult * (rider1_score - rider1_p). -/
noncomputable def h2h_delta1 (w m r1 r2 : ℝ) (t1 t2 : ℤ) : ℝ :=
  w * m * (rider1_score t1 t2 - (win_loss_probabilities r1 r2).1)

/-- The delta contribution of rider2 in Velo.h2h line 177:
matchup_weight * margvict_mult * (rider2_score - rider2_p). -/
noncomputable def h2h_delta2 (w m r1 r2 : ℝ) (t1 t2 : ℤ) : ℝ :=
  w * m * (rider2_score t1 t2 - (win_loss_probabilities r1 r2).2)

/-- The per-pair data Velo.simulate_race (Velo.py 107-156) extracts from the
results table before invoking h2h: the two rider names (row i strictly
better placed than row j), their elapsed times in seconds, and the matchup
weight k_func(race_weight, place1, place2).  None of these depend on the
order in which the pairs are processed. -/
structure H2HPair where
  rider1 : String
  rider2 : String
  time1 : ℤ
  time2 : ℤ
  weight : ℝ

/-- The rider map self.riders of a Velo system, as a total function. -/
abbrev VeloSystem := String → Rider

/-- Point update of a rider map: Python object mutation of the entry at one
name. -/
def mapUpd {α : Type} (sys : String → α) (n : String) (g : α → α) :
    String → α :=
  fun m => if m = n then g (sys m) else sys m

/-- The rider-map state after the two update_delta calls of the h2h body
(Velo.py 176-181 / CyclElo.py 157-163, on the path where the margin factor
was obtained, so margvict_val = 1): both win probabilities and scores are
computed from the current committed ratings, and the two delta
contributions accumulate via update_delta.  The committed ratings are
read, never written.  This is exactly the state Velo.h2h has reached when
line 184 raises (see h2h). -/
noncomputable def h2h_deltas_state (sys : VeloSystem) (p : H2HPair) :
    VeloSystem :=
  let d1 := h2h_delta1 p.weight margvict_val (sys p.rider1).rating
    (sys p.rider2).rating p.time1 p.time2
  let d2 := h2h_delta2 p.weight margvict_val (sys p.rider1).rating
    (sys p.rider2).rating p.time1 p.time2
  let s1 := mapUpd sys p.rider1 (fun r => update_delta r d1)
  mapUpd s1 p.rider2 (fun r => update_delta r d2)

/-- Velo.h2h (Velo.py 159-187) as it actually executes on entities.Rider:
it never returns.  With a None multiplier, _get_margvict_mult raises
TypeError on line 331 before any delta update, so the rider map is still
the input one at the raise.  With a multiplier present, the deltas are
accumulated (h2h_deltas_state), and then line 184 evaluates
rider1.increment_wins — entities.Rider, the class Velo imports, defines no
increment_wins or increment_losses (only the Rider class of
ratings/Rider.py does) — so an AttributeError aborts h2h after the delta
updates.  Except.error carries the rider map at the uncaught raise. -/
noncomputable def h2h (sys : VeloSystem) (tgm : Option ℝ) (p : H2HPair) :
    Except VeloSystem VeloSystem :=
  match tgm with
  | none => Except.error sys
  | some _ => Except.error (h2h_deltas_state sys p)

/-- The pair loop of Velo.simulate_race (Velo.py 107-156) threaded through
h2h: an uncaught exception in h2h aborts the whole loop with the rider map
h2h had reached.  Since h2h never returns (see h2h), the loop aborts at
its first pair; only an event with no valid pair completes. -/
noncomputable def simulate_pass (sys : VeloSystem) (tgm : Option ℝ) :
    List H2HPair → Except VeloSystem VeloSystem
  | [] => Except.ok sys
  | p :: rest =>
    match h2h sys tgm p with
    | Except.error s => Except.error s
    | Except.ok s => simulate_pass s tgm rest

/-- The h2h body run to completion: h2h_deltas_state followed by the
win/loss counter updates of lines 184-187.  On entities.Rider those two
calls raise (see h2h); the identical body completes on the Rider class of
ratings/Rider.py, which declares increment_wins / increment_losses
(Rider.py 38-42) and is the class CyclElo.h2h (CyclElo.py 141-169, the
same statements line for line) runs against.  This models that completing
execution — the accumulate-then-resolve discipline the specification
describes — and is what the entities.py refactor broke by dropping the two
counters. -/
noncomputable def h2h_completed (sys : VeloSystem) (p : H2HPair) :
    VeloSystem :=
  let s2 := h2h_deltas_state sys p
  let s3 := mapUpd s2 p.rider1 (fun r =>
    if rider1_score p.time1 p.time2 = 1 then increment_wins r
    else increment_losses r)
  mapUpd s3 p.rider2 (fun r =>
    if rider2_score p.time1 p.time2 = 1 then increment_wins r
    else increment_losses r)

/-- The simulate pass of one event for the completing h2h body: the
head-to-heads in their list order, each through h2h_completed. -/
noncomputable def simulate_pass_completed (sys : VeloSystem)
    (ps : List H2HPair) : VeloSystem :=
  ps.foldl h2h_completed sys

/-- Velo.apply_all_deltas (Velo.py 189-191): resolve_delta on every known
rider. -/
noncomputable def apply_all_deltas (sys : VeloSystem) (raceName : String)
    (raceWeight : ℝ) (d : Datestamp) : VeloSystem :=
  fun n => resolve_delta (sys n) raceName raceWeight d

/-- The delta contribution one pair makes to the rider named n, as a
function of the frozen pre-event rating assignment rho.  When both sides of
the pair carry the same name the two contributions accumulate, exactly as
two sequential update_delta calls on the aliased Python object would. -/
noncomputable def pair_contrib (rho : String → ℝ) (n : String) (p : H2HPair) : ℝ :=
  (if n = p.rider1 then
    h2h_delta1 p.weight margvict_val (rho p.rider1) (rho p.rider2) p.time1 p.time2
  else 0) +
  (if n = p.rider2 then
    h2h_delta2 p.weight margvict_val (rho p.rider1) (rho p.rider2) p.time1 p.time2
  else 0)

/-- VGlicko.py line 14: SCALE_CONSTANT = 173.7178. -/
def SCALE_CONSTANT : ℝ := 173.7178

/-- VGlicko.py line 15: PLACE_DIFF_CONSTANT = 50. -/
def PLACE_DIFF_CONSTANT : ℤ := 50

/-- The per-rider mutable state of entities.GlickoRider (entities.py
86-133) that VGlicko reads or writes: rating, rating deviation, volatility,
race counters, the rating history and the activity year.  As with Rider,
the name is the key of the rider map; team and age are not modelled. -/
structure GlickoRiderState where
  rating : ℝ
  rd : ℝ
  volatility : ℝ
  numRaces : ℕ
  beginningYearRating : ℝ
  racesThisYear : ℕ
  ratingHistory : List (ℝ × ℝ × ℝ × Stamp)
  mostRecentActiveYear : ℤ

/-- entities.GlickoRider construction with the VGlicko defaults
(VGlicko.py 22-23: initial rating 1500, initial rd 350, initial
volatility 0.06; entities.py 86-100). -/
noncomputable def initial_glicko_rider : GlickoRiderState :=
  { rating := 1500
    rd := 350
    volatility := 0.06
    numRaces := 0
    beginningYearRating := 1500
    racesThisYear := 0
    ratingHistory := [(1500, 350, 0.06, Stamp.newseason)]
    mostRecentActiveYear := 1900 }

/-- entities.GlickoRider.update_rating (entities.py 117-133): each value
given (not None) replaces the corresponding field (a new rating also
increments num_races); then the current triple is appended to the rating
history stamped with the date, the most recent active year becomes the
year of the datestamp and races_this_year is incremented. -/
def update_rating (r : GlickoRiderState) (d : Datestamp)
    (newRating newRd newVolatility : Option ℝ) : GlickoRiderState :=
  let r1 := match newRating with
    | some x => { r with rating := x, numRaces := r.numRaces + 1 }
    | none => r
  let r2 := match newRd with
    | some x => { r1 with rd := x }
    | none => r1
  let r3 := match newVolatility with
    | some x => { r2 with volatility := x }
    | none => r2
  { r3 with
    ratingHistory := r3.ratingHistory ++
      [(r3.rating, r3.rd, r3.volatility, Stamp.onDate d)]
    mostRecentActiveYear := d.year
    racesThisYear := r3.racesThisYear + 1 }

/-- VGlicko.compute_non_competitor_rd_update (VGlicko.py 248-255):
sqrt((rd / SCALE_CONSTANT)^2 + volatility^2) * SCALE_CONSTANT.  The method
is defined in the source but has no call site anywhere in the repository;
in particular VGlicko.simulate_race never invokes it. -/
noncomputable def compute_non_competitor_rd_update (r : GlickoRiderState) : ℝ :=
  Real.sqrt ((r.rd / SCALE_CONSTANT) ^ 2 + r.volatility ^ 2) * SCALE_CONSTANT

/-- The commit loop of VGlicko.simulate_race (VGlicko.py 165-173): for each
rider name in new_ratings, update_rating with its new rating, new rd and
new volatility.  This loop is the only statement of simulate_race that
writes rider state, and it iterates over the participants only.  (The
rating_deltas dictionary also written there feeds print_system output and
is not rider state.)  Each update entry is (name, newRating, newRd,
newVolatility). -/
def commit_new_ratings (riders : String → GlickoRiderState) (d : Datestamp)
    (updates : List (String × ℝ × ℝ × ℝ)) : String → GlickoRiderState :=
  updates.foldl
    (fun acc u => mapUpd acc u.1
      (fun r => update_rating r d (some u.2.1) (some u.2.2.1) (some u.2.2.2)))
    riders

/-- VGlicko.compute_g (VGlicko.py 374-377):
1 / sqrt(1 + 3 * phi^2 / pi^2). -/
noncomputable def compute_g (phi : ℝ) : ℝ :=
  1 / Real.sqrt (1 + 3 * phi ^ 2 / Real.pi ^ 2)

/-- VGlicko.compute_E (VGlicko.py 379-382):
1 / (1 + exp(-g(phi_j) * (mu - mu_j))). -/
noncomputable def compute_E (mu mu_j phi_j : ℝ) : ℝ :=
  1 / (1 + Real.exp (-(compute_g phi_j) * (mu - mu_j)))

/-- One entry of the g2_ratings snapshot VGlicko.simulate_race builds
(VGlicko.py 106-122): rider name, Glicko-2 scale rating mu, Glicko-2 scale
deviation phi, volatility, and race place. -/
structure G2Entry where
  name : String
  mu : ℝ
  phi : ℝ
  vol : ℝ
  place : ℤ

/-- The opponent filter shared by compute_v, compute_delta and
new_rating_rd: every other key of the snapshot whose place differs by at
most PLACE_DIFF_CONSTANT (the loops skip the rider itself and any opponent
farther away in placement). -/
def eligible_opponents (g2 : List G2Entry) (r : G2Entry) : List G2Entry :=
  g2.filter (fun o => o.name ≠ r.name ∧ |r.place - o.place| ≤ PLACE_DIFF_CONSTANT)

/-- The sum inverted by VGlicko.compute_v (VGlicko.py 350-372):
sigma = sum over eligible opponents of g(phi_j)^2 * E * (1 - E). -/
noncomputable def compute_v_divisor (g2 : List G2Entry) (r : G2Entry) : ℝ :=
  ((eligible_opponents g2 r).map
    (fun o => compute_g o.phi ^ 2 * compute_E r.mu o.mu o.phi *
      (1 - compute_E r.mu o.mu o.phi))).sum

/-- VGlicko.compute_v (VGlicko.py 350-372): 1 / sigma with no guard on
sigma.  Each contributed term is strictly positive, so sigma is zero
exactly when no eligible opponent contributed — in Python sigma is then
still the int 0 and the division raises ZeroDivisionError, modelled none. -/
noncomputable def compute_v (g2 : List G2Entry) (r : G2Entry) : Option ℝ :=
  if compute_v_divisor g2 r = 0 then none
  else some (1 / compute_v_divisor g2 r)

/-- The score s_j used by compute_delta and new_rating_rd (VGlicko.py 341,
234): 1 when the rider is placed strictly better than the opponent. -/
def glicko_score (r o : G2Entry) : ℝ :=
  if r.place < o.place then 1 else 0

/-- VGlicko.compute_delta (VGlicko.py 325-348): g2_v[rider] times the sum
over eligible opponents of g(phi_j) * (s_j - E). -/
noncomputable def compute_delta (g2 : List G2Entry) (v : ℝ) (r : G2Entry) : ℝ :=
  v * ((eligible_opponents g2 r).map
    (fun o => compute_g o.phi * (glicko_score r o - compute_E r.mu o.mu o.phi))).sum

/-- VGlicko.volatility_update_f (VGlicko.py 310-323), embedded exactly as
written: frac1 = e^x (delta^2 - phi^2 - v - e^x) / (2 (phi^2 + v + e^x)^2),
then num2 = x - a and denom2 = tau^2, but line 321 computes
frac2 = num2 - denom2 — a subtraction, not the quotient num2 / denom2 —
and the function returns frac1 - frac2. -/
noncomputable def volatility_update_f (phi v delta tau a x : ℝ) : ℝ :=
  let e_x := Real.exp x
  let num1 := e_x * (delta ^ 2 - phi ^ 2 - v - e_x)
  let denom1 := 2 * ((phi ^ 2 + v + e_x) ^ 2)
  let frac1 := num1 / denom1
  let num2 := x - a
  let denom2 := tau ^ 2
  let frac2 := num2 - denom2
  frac1 - frac2

/-- Modelled from the spec for comparison with volatility_update_f: the
Glicko-2 volatility objective with the second term the quotient
(x - a) / tau^2, as section 4.3 of the spec states it. -/
noncomputable def volatility_update_f_spec (phi v delta tau a x : ℝ) : ℝ :=
  let e_x := Real.exp x
  let num1 := e_x * (delta ^ 2 - phi ^ 2 - v - e_x)
  let denom1 := 2 * ((phi ^ 2 + v + e_x) ^ 2)
  let frac1 := num1 / denom1
  let num2 := x - a
  let denom2 := tau ^ 2
  let frac2 := num2 / denom2
  frac1 - frac2

/-- VGlicko.compute_iterative_B (VGlicko.py 299-308): starting from k = 1,
increment k while f(a - k tau) < 0, and return a - k tau.  The Python loop
carries no iteration cap; the embedding spends one unit of fuel per
iteration and returns none when the fuel runs out. -/
noncomputable def compute_iterative_B (tau phi v delta a : ℝ) :
    ℕ → ℕ → Option ℝ
  | 0, _ => none
  | fuel + 1, k =>
    if volatility_update_f phi v delta tau a (a - (k : ℝ) * tau) < 0 then
      compute_iterative_B tau phi v delta a fuel (k + 1)
    else some (a - (k : ℝ) * tau)

/-- The while loop of VGlicko.update_volatility (VGlicko.py 279-295):
while abs(B - A) > 0.000001, take the regula-falsi point C, then the
Illinois update (A takes B when f_B * f_C <= 0, otherwise f_A is halved),
and always B takes C.  The source loop carries no iteration cap; the
embedding spends one unit of fuel per iteration and returns none when the
fuel runs out.  On exit the loop value is A. -/
noncomputable def illinois_loop (tau phi v delta a : ℝ) :
    ℕ → ℝ → ℝ → ℝ → ℝ → Option ℝ
  | 0, _, _, _, _ => none
  | fuel + 1, A, B, fA, fB =>
    if |B - A| ≤ 1 / 1000000 then some A
    else
      let C := A + ((A - B) * fA) / (fB - fA)
      let fC := volatility_update_f phi v delta tau a C
      if fB * fC ≤ 0 then illinois_loop tau phi v delta a fuel B C fB fC
      else illinois_loop tau phi v delta a fuel A C (fA / 2) fC

/-- VGlicko.update_volatility (VGlicko.py 257-297): a = log(vol^2), A = a;
B = log(delta^2 - phi^2 - v) when that argument is positive, otherwise the
iterative search of compute_iterative_B; then the Illinois loop, and the
returned volatility is exp(A / 2) for the final A. -/
noncomputable def update_volatility (fuel : ℕ) (tau : ℝ) (r : G2Entry)
    (v delta : ℝ) : Option ℝ :=
  let phi := r.phi
  let vol := r.vol
  let a := Real.log (vol ^ 2)
  let A := a
  let B0 : Option ℝ :=
    if delta ^ 2 > phi ^ 2 + v then some (Real.log (delta ^ 2 - phi ^ 2 - v))
    else compute_iterative_B tau phi v delta a fuel 1
  B0.bind (fun B =>
    (illinois_loop tau phi v delta a fuel A B
      (volatility_update_f phi v delta tau a A)
      (volatility_update_f phi v delta tau a B)).map
      (fun A2 => Real.exp (A2 / 2)))

/-- Configuration of a VGlicko system (VGlicko.py 22-39): tau and the
initial rating, rd and volatility given to new riders. -/
structure VGlickoConfig where
  tau : ℝ
  initialRating : ℝ
  initialRd : ℝ
  initialVolatility : ℝ

/-- VGlicko.new_rating_rd (VGlicko.py 209-246): phi* = sqrt(phi^2 +
newVol^2), new phi = 1 / sqrt(1 / phi*^2 + 1 / v), sigma the weighted sum
over eligible opponents and new mu = mu + new phi^2 * sigma; the returned
pair is the new rating and new rd back on the external scale.  The matchup
weight lookup is modelled over an association list (missing pairs read 0:
in the source a missing key would raise, but the weight table covers every
pair whenever it exists at all). -/
noncomputable def new_rating_rd (cfg : VGlickoConfig) (g2 : List G2Entry)
    (weights : List ((String × String) × ℝ)) (v newVol : ℝ) (r : G2Entry) :
    ℝ × ℝ :=
  let phiStar := Real.sqrt (r.phi ^ 2 + newVol ^ 2)
  let newPhi := 1 / Real.sqrt (1 / phiStar ^ 2 + 1 / v)
  let sigma := ((eligible_opponents g2 r).map
    (fun o =>
      (((weights.find? (fun x => x.1.1 == r.name && x.1.2 == o.name)).map
        (fun x => x.2)).getD 0) *
      compute_g o.phi * (glicko_score r o - compute_E r.mu o.mu o.phi))).sum
  let newMu := r.mu + newPhi ^ 2 * sigma
  (SCALE_CONSTANT * newMu + cfg.initialRating, SCALE_CONSTANT * newPhi)

/-- One row of the results table as VGlicko.simulate_race reads it
(VGlicko.py 107-112): rider name, place, age. -/
structure GRow where
  rider : String
  place : ℤ
  age : ℤ

/-- The dict comprehension g2_v of VGlicko.simulate_race (VGlicko.py
145-148), evaluated left to right: the first compute_v that raises aborts
the whole comprehension (none). -/
noncomputable def collect_vs (g2 : List G2Entry) :
    List G2Entry → Option (List (String × ℝ))
  | [] => some []
  | r :: rest =>
    match compute_v g2 r with
    | none => none
    | some v => (collect_vs g2 rest).map (fun t => (r.name, v) :: t)

/-- The dict comprehension new_vols of VGlicko.simulate_race (VGlicko.py
153-154), evaluated left to right with the fuel-modelled solver. -/
noncomputable def collect_vols (fuel : ℕ) (tau : ℝ) (g2 : List G2Entry)
    (vOf deltaOf : String → ℝ) :
    List G2Entry → Option (List (String × ℝ))
  | [] => some []
  | r :: rest =>
    match update_volatility fuel tau r (vOf r.name) (deltaOf r.name) with
    | none => none
    | some nv => (collect_vols fuel tau g2 vOf deltaOf rest).map
        (fun t => (r.name, nv) :: t)

/-- Reading a Python dict modelled as an association list (keys are rider
names, present by construction wherever the source reads them). -/
def assoc_get (l : List (String × ℝ)) (n : String) : ℝ :=
  ((l.find? (fun x => x.1 == n)).map (fun x => x.2)).getD 0

/-- VGlicko.simulate_race (VGlicko.py 85-173).  Phases, in source order:
build the g2_ratings snapshot of every row (add_new_rider gives absent
riders the configured initial values; here the rider map is total); build
the matchup weight table — the loop body evaluates self.k_decay, an
attribute neither VGlicko nor Velo defines, so any event with at least two
rows raises AttributeError there (modelled none), and with fewer rows the
loops run zero times and the table is empty; compute g2_v with compute_v
(a ZeroDivisionError aborts, none); compute deltas; solve the new
volatilities; compute new ratings and rds; commit with the participant
loop commit_new_ratings.  The race log append and rating_deltas printing
bookkeeping are not rider state and are not modelled. -/
noncomputable def simulate_race_glicko (cfg : VGlickoConfig) (fuel : ℕ)
    (riders : String → GlickoRiderState) (rows : List GRow) (d : Datestamp)
    (raceWeight : ℝ) : Option (String → GlickoRiderState) :=
  let g2 : List G2Entry := rows.map (fun row =>
    { name := row.rider
      mu := ((riders row.rider).rating - cfg.initialRating) / SCALE_CONSTANT
      phi := (riders row.rider).rd / SCALE_CONSTANT
      vol := (riders row.rider).volatility
      place := row.place })
  if 2 ≤ rows.length then none
  else
    match collect_vs g2 g2 with
    | none => none
    | some vs =>
      let vOf := assoc_get vs
      let deltas := g2.map (fun r => (r.name, compute_delta g2 (vOf r.name) r))
      let deltaOf := assoc_get deltas
      match collect_vols fuel cfg.tau g2 vOf deltaOf g2 with
      | none => none
      | some vols =>
        let volOf := assoc_get vols
        let weights : List ((String × String) × ℝ) := []
        let newRatings := g2.map (fun r =>
          (r.name, new_rating_rd cfg g2 weights (vOf r.name) (volOf r.name) r))
        some (commit_new_ratings riders d
          (newRatings.map (fun x => (x.1, x.2.1, x.2.2, volOf x.1))))

/-! Concrete inputs used by the witness theorems. -/

/-- A concrete head-to-head pair: alice (better placed, winning time)
against bob. -/
def c1PairA : H2HPair :=
  { rider1 := "alice", rider2 := "bob", time1 := 0, time2 := 30, weight := 10 }

/-- A concrete head-to-head pair: alice against carol. -/
def c1PairB : H2HPair :=
  { rider1 := "alice", rider2 := "carol", time1 := 0, time2 := 45, weight := 10 }

/-- A rider map where every name starts from the default initial state. -/
noncomputable def c1Sys : VeloSystem := fun _ => initial_rider

/-- A rider map where every rider carries a pending delta of 25. -/
noncomputable def c7Sys : VeloSystem := fun _ =>
  { initial_rider with delta := 25 }

/-- A rider rated 1600 before season regression. -/
noncomputable def c4Rider : Rider := { initial_rider with rating := 1600 }

/-- A Glicko rider map where every name starts from the default state. -/
noncomputable def c8Riders : String → GlickoRiderState :=
  fun _ => initial_glicko_rider

/-- A concrete commit list for an event in which alice and bob competed. -/
noncomputable def c8Updates : List (String × ℝ × ℝ × ℝ) :=
  [("alice", 1510, 300, 0.06), ("bob", 1490, 300, 0.06)]

/-- The VGlicko constructor defaults (VGlicko.py 22-23). -/
noncomputable def cfg0 : VGlickoConfig :=
  { tau := 0.05, initialRating := 1500, initialRd := 350,
    initialVolatility := 0.06 }

/-- A one-row event: a single finisher named solo in first place. -/
def soloRow : GRow := { rider := "solo", place := 1, age := 25 }

/-- The g2_ratings snapshot entry of a default-state rider placed first. -/
noncomputable def soloEntry : G2Entry :=
  { name := "solo", mu := 0, phi := 350 / SCALE_CONSTANT, vol := 0.06,
    place := 1 }

/-- A Glicko rider map for the one-row event. -/
noncomputable def gSys0 : String → GlickoRiderState :=
  fun _ => initial_glicko_rider

/-! Helper lemmas about the Elo simulate pass. -/

/-- The delta updates of one h2h leave every committed rating unchanged. -/
lemma h2h_deltas_state_rating (sys : VeloSystem) (p : H2HPair) (n : String) :
    ((h2h_deltas_state sys p) n).rating = (sys n).rating := by
  simp only [h2h_deltas_state, mapUpd, update_delta]
  split_ifs <;> rfl

/-- The completed h2h body leaves every committed rating unchanged: the
only fields it writes are the delta accumulator and the win/loss
counters. -/
lemma h2h_completed_rating (sys : VeloSystem) (p : H2HPair) (n : String) :
    ((h2h_completed sys p) n).rating = (sys n).rating := by
  simp only [h2h_completed, h2h_deltas_state, mapUpd, update_delta,
    increment_wins, increment_losses]
  split_ifs <;> rfl

/-- The completed h2h body adds exactly the pair contribution, computed
from the current committed ratings, to the delta accumulator of each
touched rider. -/
lemma h2h_completed_delta (sys : VeloSystem) (p : H2HPair) (n : String) :
    ((h2h_completed sys p) n).delta =
      (sys n).delta + pair_contrib (fun k => (sys k).rating) n p := by
  simp only [h2h_completed, h2h_deltas_state, mapUpd, update_delta,
    increment_wins, increment_losses, pair_contrib]
  split_ifs <;> simp <;> ring

/-- Folding the completed h2h body over any pair list leaves every
committed rating unchanged. -/
lemma foldl_h2h_rating (ps : List H2HPair) (sys : VeloSystem) (n : String) :
    ((ps.foldl h2h_completed sys) n).rating = (sys n).rating := by
  induction ps generalizing sys with
  | nil => rfl
  | cons p rest ih => rw [List.foldl_cons, ih, h2h_completed_rating]

/-- Folding the completed h2h body over a pair list accumulates, per
rider, the sum of the pair contributions, each computed from the frozen
pre-event ratings. -/
lemma foldl_h2h_delta (ps : List H2HPair) (sys : VeloSystem) (n : String) :
    ((ps.foldl h2h_completed sys) n).delta =
      (sys n).delta + (ps.map (pair_contrib (fun k => (sys k).rating) n)).sum := by
  induction ps generalizing sys with
  | nil => simp
  | cons p rest ih =>
    rw [List.foldl_cons, ih]
    have hrho : (fun k => ((h2h_completed sys p) k).rating)
        = fun k => (sys k).rating :=
      funext fun k => h2h_completed_rating sys p k
    rw [hrho, h2h_completed_delta, List.map_cons, List.sum_cons]
    ring

/-! Claim theorems. -/

/-- C1: on entities.Rider, Velo.h2h never returns, so simulate_race aborts
at its first head-to-head — with a multiplier present the AttributeError
on the missing increment_wins fires after the two delta updates, with a
None multiplier a TypeError fires before them — and the claimed
complete-pass discipline never executes; the committed ratings are
nevertheless untouched at the abort, and for the completing h2h body (the
same statements run by CyclElo.h2h against the Rider class of
ratings/Rider.py) the claimed property holds: the pass mutates no
committed rating, and processing the pairs of one event in any
permutation, followed by resolving the deltas, yields identical final
per-competitor ratings. -/
theorem c1_pass_aborts_and_completed_order_independent (sys : VeloSystem)
    (mu : ℝ) (p : H2HPair) (rest ps qs : List H2HPair) (raceName : String)
    (raceWeight : ℝ) (d : Datestamp) (hperm : ps.Perm qs) :
    simulate_pass sys (some mu) (p :: rest)
      = Except.error (h2h_deltas_state sys p) ∧
    simulate_pass sys none (p :: rest) = Except.error sys ∧
    (∀ n, ((h2h_deltas_state sys p) n).rating = (sys n).rating) ∧
    (∀ n, ((simulate_pass_completed sys ps) n).rating = (sys n).rating) ∧
    (∀ n, ((apply_all_deltas (simulate_pass_completed sys ps)
          raceName raceWeight d) n).rating
        = ((apply_all_deltas (simulate_pass_completed sys qs)
          raceName raceWeight d) n).rating) := by
  refine ⟨rfl, rfl, fun n => h2h_deltas_state_rating sys p n,
    fun n => foldl_h2h_rating ps sys n, ?_⟩
  intro n
  have hres : ∀ (s : VeloSystem),
      ((apply_all_deltas s raceName raceWeight d) n).rating =
        (s n).rating + (s n).delta := fun s => rfl
  rw [hres, hres]
  show ((ps.foldl h2h_completed sys) n).rating
        + ((ps.foldl h2h_completed sys) n).delta
      = ((qs.foldl h2h_completed sys) n).rating
        + ((qs.foldl h2h_completed sys) n).delta
  rw [foldl_h2h_rating, foldl_h2h_rating, foldl_h2h_delta, foldl_h2h_delta,
    (hperm.map (pair_contrib (fun k => (sys k).rating) n)).sum_eq]

/-- Witness for C1 at a concrete event: the pass aborts at the first pair
with only its deltas applied, and the completed pass resolved in both
orders gives alice the same rating. -/
theorem c1_pass_aborts_and_completed_order_independent_witness :
    ([c1PairA, c1PairB].Perm [c1PairB, c1PairA]) ∧
    simulate_pass c1Sys (some 1) [c1PairA]
      = Except.error (h2h_deltas_state c1Sys c1PairA) ∧
    ((apply_all_deltas (simulate_pass_completed c1Sys [c1PairA, c1PairB])
        "r" 10 ⟨2022, 5, 1⟩) "alice").rating
      = ((apply_all_deltas (simulate_pass_completed c1Sys [c1PairB, c1PairA])
        "r" 10 ⟨2022, 5, 1⟩) "alice").rating := by
  have hp : ([c1PairA, c1PairB].Perm [c1PairB, c1PairA]) :=
    List.Perm.swap c1PairB c1PairA []
  have h := c1_pass_aborts_and_completed_order_independent c1Sys 1 c1PairA
    [] [c1PairA, c1PairB] [c1PairB, c1PairA] "r" 10 ⟨2022, 5, 1⟩ hp
  exact ⟨hp, h.1, h.2.2.2.2 "alice"⟩

/-- C6: for any single head-to-head, for all rating values, time inputs,
weight and margin factor, the two delta contributions
weight * marginFactor * (score - winProbability) sum to exactly zero. -/
theorem c6_h2h_deltas_zero_sum (w m r1 r2 : ℝ) (t1 t2 : ℤ) :
    h2h_delta1 w m r1 r2 t1 t2 + h2h_delta2 w m r1 r2 t1 t2 = 0 := by
  have hq1 : 0 < elo_q r1 := Real.rpow_pos_of_pos (by norm_num) _
  have hq2 : 0 < elo_q r2 := Real.rpow_pos_of_pos (by norm_num) _
  have hqs : elo_q r1 + elo_q r2 ≠ 0 := by positivity
  unfold h2h_delta1 h2h_delta2 win_loss_probabilities rider1_score rider2_score
  by_cases h : t1 ≤ t2
  · rw [if_pos h, if_neg (not_lt.mpr h)]
    field_simp
  · rw [if_neg h, if_pos (not_le.mp h)]
    field_simp

/-- C9 counterexample: in Velo.h2h the scores are decided by elapsed time
alone, so when the better-place row (rider1) carries the larger time —
here 100 against 50 — the better-placed competitor is assigned score 0 and
the other score 1, contradicting the claim that the better-placed
competitor is assigned score 1 with time used only to break ties. -/
theorem c9_better_place_score_cex :
    rider1_score 100 50 = 0 ∧ rider2_score 100 50 = 1 := by
  constructor <;> norm_num [rider1_score, rider2_score]

/-- C9 amended: the scores of a head-to-head pair are decided by the two
elapsed times — rider1 (the better-place row) scores 1 exactly when its
time is less than or equal to the time of rider2, ties favouring the
better-place row — and exactly one of the two scores is 1 for all
inputs. -/
theorem c9_scores_time_decided (t1 t2 : ℤ) :
    (rider1_score t1 t2 = 1 ∨ rider2_score t1 t2 = 1) ∧
    ¬(rider1_score t1 t2 = 1 ∧ rider2_score t1 t2 = 1) ∧
    (t1 ≤ t2 → rider1_score t1 t2 = 1 ∧ rider2_score t1 t2 = 0) ∧
    (t2 < t1 → rider1_score t1 t2 = 0 ∧ rider2_score t1 t2 = 1) ∧
    rider1_score t1 t2 + rider2_score t1 t2 = 1 := by
  by_cases h : t1 ≤ t2
  · simp [rider1_score, rider2_score, h, not_lt.mpr h]
  · simp [rider1_score, rider2_score, h, not_le.mp h, not_le]

/-- Witness for C9 amended at the concrete times 0 and 30. -/
theorem c9_scores_time_decided_witness :
    rider1_score 0 30 = 1 ∧ rider2_score 0 30 = 0 ∧
    rider1_score 0 30 + rider2_score 0 30 = 1 := by
  have h := c9_scores_time_decided 0 30
  exact ⟨(h.2.2.1 (by norm_num)).1, (h.2.2.1 (by norm_num)).2, h.2.2.2.2⟩

/-- C7: resolving the deltas after an event gives every known competitor a
rating of old rating plus pending delta, a zero pending delta, one
rating-history snapshot tagged with the event date, and a
mostRecentActiveYear set to the year of the date exactly when the pending
delta was non-zero — with a zero delta the year is left unchanged. -/
theorem c7_resolve_deltas_effect (sys : VeloSystem) (raceName : String)
    (raceWeight : ℝ) (d : Datestamp) (n : String) :
    ((apply_all_deltas sys raceName raceWeight d) n).rating
      = (sys n).rating + (sys n).delta ∧
    ((apply_all_deltas sys raceName raceWeight d) n).delta = 0 ∧
    ((apply_all_deltas sys raceName raceWeight d) n).ratingHistory
      = (sys n).ratingHistory ++
        [((sys n).rating + (sys n).delta, Stamp.onDate d)] ∧
    ((sys n).delta ≠ 0 →
      ((apply_all_deltas sys raceName raceWeight d) n).mostRecentActiveYear
        = d.year) ∧
    ((sys n).delta = 0 →
      ((apply_all_deltas sys raceName raceWeight d) n).mostRecentActiveYear
        = (sys n).mostRecentActiveYear) := by
  refine ⟨rfl, rfl, rfl, ?_, ?_⟩
  · intro h
    show (if (sys n).delta ≠ 0 then d.year else (sys n).mostRecentActiveYear)
      = d.year
    rw [if_pos h]
  · intro h
    show (if (sys n).delta ≠ 0 then d.year else (sys n).mostRecentActiveYear)
      = (sys n).mostRecentActiveYear
    rw [if_neg (by simp [h])]

/-- Witness for C7 at a concrete system whose riders carry delta 25. -/
theorem c7_resolve_deltas_effect_witness :
    ((c7Sys "dana").delta ≠ 0) ∧
    ((apply_all_deltas c7Sys "race" 5 ⟨2021, 7, 4⟩) "dana").rating
      = (c7Sys "dana").rating + (c7Sys "dana").delta ∧
    ((apply_all_deltas c7Sys "race" 5 ⟨2021, 7, 4⟩) "dana").mostRecentActiveYear
      = 2021 := by
  have h25 : (c7Sys "dana").delta ≠ 0 := by
    norm_num [c7Sys, initial_rider]
  have h := c7_resolve_deltas_effect c7Sys "race" 5 ⟨2021, 7, 4⟩ "dana"
  exact ⟨h25, h.1, h.2.2.2.1 h25⟩

/-- C4: the body of entities.Rider.new_season replaces the rating by
DEFAULT_RATING * w + rating * (1 - w); with w = 0 the rating is unchanged,
with w = 1 it becomes exactly 1500, and for w strictly between 0 and 1 the
new rating lies strictly between the old rating and 1500, or equals 1500
when the old rating was already 1500.  (The call path
Velo.new_season_regression never reaches this body: it raises TypeError,
see the record of this claim.) -/
theorem c4_new_season_regression (r : Rider) (y : ℤ) (w : ℝ) :
    (new_season r y w).rating
      = DEFAULT_INITIAL_RATING * w + r.rating * (1 - w) ∧
    (w = 0 → (new_season r y w).rating = r.rating) ∧
    (w = 1 → (new_season r y w).rating = DEFAULT_INITIAL_RATING) ∧
    (0 < w → w < 1 → r.rating ≠ DEFAULT_INITIAL_RATING →
      min r.rating DEFAULT_INITIAL_RATING < (new_season r y w).rating ∧
      (new_season r y w).rating < max r.rating DEFAULT_INITIAL_RATING) ∧
    (r.rating = DEFAULT_INITIAL_RATING →
      (new_season r y w).rating = DEFAULT_INITIAL_RATING) := by
  have h1500 : DEFAULT_INITIAL_RATING = (1500 : ℝ) := rfl
  have hr : (new_season r y w).rating
      = DEFAULT_INITIAL_RATING * w + r.rating * (1 - w) := rfl
  rw [h1500] at hr
  refine ⟨by rw [hr, h1500], ?_, ?_, ?_, ?_⟩
  · intro h; rw [hr, h]; ring
  · intro h; rw [hr, h, h1500]; ring
  · intro h0 h1 hne
    rw [h1500] at hne
    rcases lt_or_gt_of_ne hne with hlt | hgt
    · rw [h1500, min_eq_left hlt.le, max_eq_right hlt.le, hr]
      constructor <;> nlinarith
    · rw [h1500, min_eq_right hgt.le, max_eq_left hgt.le, hr]
      constructor <;> nlinarith
  · intro h; rw [hr, h, h1500]; ring

/-- Witness for C4: a 1600-rated rider with weight one half lands at a
rating strictly between 1500 and 1600. -/
theorem c4_new_season_regression_witness :
    ((0 : ℝ) < 1 / 2) ∧ ((1 / 2 : ℝ) < 1) ∧
    (c4Rider.rating ≠ DEFAULT_INITIAL_RATING) ∧
    min c4Rider.rating DEFAULT_INITIAL_RATING
      < (new_season c4Rider 2021 (1 / 2)).rating ∧
    (new_season c4Rider 2021 (1 / 2)).rating
      < max c4Rider.rating DEFAULT_INITIAL_RATING := by
  have hne : c4Rider.rating ≠ DEFAULT_INITIAL_RATING := by
    norm_num [c4Rider, initial_rider, DEFAULT_INITIAL_RATING]
  have h := (c4_new_season_regression c4Rider 2021 (1 / 2)).2.2.2.1
    (by norm_num) (by norm_num) hne
  exact ⟨by norm_num, by norm_num, hne, h.1, h.2⟩

/-- C2: at the concrete input (phi, v, delta, tau, a, x) = (0, 1, 0, 1, 0, 0)
the objective VGlicko.volatility_update_f evaluates gives 3/4, while the
claimed form with the second term the quotient (x - a) / tau^2 gives -1/4:
line 321 of VGlicko.py subtracts the denominator instead of dividing by
it. -/
theorem c2_volatility_f_subtraction_bug :
    volatility_update_f 0 1 0 1 0 0 = 3 / 4 ∧
    volatility_update_f_spec 0 1 0 1 0 0 = -(1 / 4) ∧
    volatility_update_f 0 1 0 1 0 0 ≠ volatility_update_f_spec 0 1 0 1 0 0 := by
  have he : Real.exp 0 = 1 := Real.exp_zero
  have h1 : volatility_update_f 0 1 0 1 0 0 = 3 / 4 := by
    unfold volatility_update_f
    rw [he]
    norm_num
  have h2 : volatility_update_f_spec 0 1 0 1 0 0 = -(1 / 4) := by
    unfold volatility_update_f_spec
    rw [he]
    norm_num
  refine ⟨h1, h2, ?_⟩
  rw [h1, h2]
  norm_num

/-- C5: passing a null multiplier to Velo._get_margvict_mult raises
(modelled none) rather than returning 1, and with a multiplier present the
function returns 1 unconditionally — never the claimed formula, whose
value (as utils.get_marg_victory_factor computes it) exceeds 1 at the same
concrete input. -/
theorem c5_margvict_mult_behaviour :
    get_margvict_mult 1500 1500 0 600 none = none ∧
    get_margvict_mult 1500 1500 0 600 (some 2) = some 1 ∧
    1 < get_marg_victory_factor 1500 1500 0 600 (some 2) := by
  refine ⟨rfl, rfl, ?_⟩
  show 1 < Real.log (((|(600 : ℤ) - 0| : ℤ) : ℝ) * 2 + 2) *
      (2.2 / ((1500 - 1500) * 0.001 + 2.2))
  have harg : (((|(600 : ℤ) - 0| : ℤ) : ℝ) * 2 + 2) = 1202 := by norm_num
  have hcoef : (2.2 / (((1500 : ℝ) - 1500) * 0.001 + 2.2)) = 1 := by norm_num
  rw [harg, hcoef, mul_one]
  have hexp : Real.exp 1 < 1202 :=
    lt_trans Real.exp_one_lt_d9 (by norm_num)
  exact (Real.lt_log_iff_exp_lt (by norm_num)).mpr hexp

/-- C8: the only rider-state mutation in VGlicko.simulate_race is the
commit loop over new_ratings, whose keys are the participants of the
event; a known competitor outside that list keeps rating, rd and
volatility entirely unchanged — and, whenever the volatility is non-zero,
that unchanged rd differs from the inflated value
sqrt(phi^2 + sigma^2) * SCALE that the claim asserts, which only the
never-called compute_non_competitor_rd_update would produce. -/
theorem c8_non_participants_untouched (riders : String → GlickoRiderState)
    (d : Datestamp) (updates : List (String × ℝ × ℝ × ℝ)) (n : String)
    (hn : n ∉ updates.map (fun u => u.1))
    (hv : (riders n).volatility ≠ 0) :
    commit_new_ratings riders d updates n = riders n ∧
    (commit_new_ratings riders d updates n).rd
      ≠ compute_non_competitor_rd_update (riders n) := by
  have hframe : ∀ (rs : String → GlickoRiderState)
      (us : List (String × ℝ × ℝ × ℝ)), n ∉ us.map (fun u => u.1) →
      commit_new_ratings rs d us n = rs n := by
    intro rs us
    induction us generalizing rs with
    | nil => intro _; rfl
    | cons u rest ih =>
      intro hmem
      have hne : n ≠ u.1 := by
        intro h
        exact hmem (by simp [h])
      have hrest : n ∉ rest.map (fun u => u.1) := by
        intro h
        exact hmem (by simp [h])
      show commit_new_ratings
        (mapUpd rs u.1 (fun r =>
          update_rating r d (some u.2.1) (some u.2.2.1) (some u.2.2.2)))
        d rest n = rs n
      rw [ih _ hrest]
      simp [mapUpd, hne]
  have hf := hframe riders updates hn
  refine ⟨hf, ?_⟩
  rw [hf]
  unfold compute_non_competitor_rd_update
  intro heq
  have hS : (0 : ℝ) < SCALE_CONSTANT := by norm_num [SCALE_CONSTANT]
  have hvol2 : 0 < (riders n).volatility ^ 2 := by positivity
  have habs : Real.sqrt (((riders n).rd / SCALE_CONSTANT) ^ 2)
      < Real.sqrt (((riders n).rd / SCALE_CONSTANT) ^ 2 +
        (riders n).volatility ^ 2) :=
    Real.sqrt_lt_sqrt (sq_nonneg _) (by linarith)
  rw [Real.sqrt_sq_eq_abs] at habs
  have hlt : (riders n).rd / SCALE_CONSTANT
      < Real.sqrt (((riders n).rd / SCALE_CONSTANT) ^ 2 +
        (riders n).volatility ^ 2) :=
    lt_of_le_of_lt (le_abs_self _) habs
  have : (riders n).rd < Real.sqrt (((riders n).rd / SCALE_CONSTANT) ^ 2 +
      (riders n).volatility ^ 2) * SCALE_CONSTANT :=
    (div_lt_iff₀ hS).mp hlt
  rw [← heq] at this
  exact lt_irrefl _ this

/-- Witness for C8: carol did not appear in a concrete commit list for an
event between alice and bob, and her state is untouched by the commit. -/
theorem c8_non_participants_untouched_witness :
    ("carol" ∉ c8Updates.map (fun u => u.1)) ∧
    ((c8Riders "carol").volatility ≠ 0) ∧
    commit_new_ratings c8Riders ⟨2022, 6, 1⟩ c8Updates "carol"
      = c8Riders "carol" ∧
    (commit_new_ratings c8Riders ⟨2022, 6, 1⟩ c8Updates "carol").rd
      ≠ compute_non_competitor_rd_update (c8Riders "carol") := by
  have hn : ("carol" ∉ c8Updates.map (fun u => u.1)) := by
    simp [c8Updates]
  have hv : (c8Riders "carol").volatility ≠ 0 := by
    norm_num [c8Riders, initial_glicko_rider]
  have h := c8_non_participants_untouched c8Riders ⟨2022, 6, 1⟩ c8Updates
    "carol" hn hv
  exact ⟨hn, hv, h.1, h.2⟩

/-- In a one-entry snapshot the rider has no eligible opponent, so the sum
compute_v inverts is empty and the division raises (none). -/
lemma compute_v_self_single (e : G2Entry) : compute_v [e] e = none := by
  have hdiv : compute_v_divisor [e] e = 0 := by
    simp [compute_v_divisor, eligible_opponents]
  simp [compute_v, hdiv]

/-- C10: for the one-row event of the single finisher solo, the divisor of
compute_v is the empty sum 0, compute_v reaches the unguarded division by
zero (none), and simulate_race aborts in that error branch instead of
producing ratings. -/
theorem c10_one_row_event_division_by_zero :
    compute_v_divisor [soloEntry] soloEntry = 0 ∧
    compute_v [soloEntry] soloEntry = none ∧
    simulate_race_glicko cfg0 100 gSys0 [soloRow] ⟨2022, 4, 3⟩ 10 = none := by
  refine ⟨?_, compute_v_self_single soloEntry, ?_⟩
  · simp [compute_v_divisor, eligible_opponents]
  · unfold simulate_race_glicko
    simp only [List.map_cons, List.map_nil, List.length_cons, List.length_nil]
    rw [if_neg (by norm_num)]
    simp [collect_vs, compute_v_self_single]
